import Mathlib

/-!
Verification of `getSecularAndDiffusionTimes.py`.

The file is a shallow embedding of the program that computes the secular
and diffusion timescales of a test particle perturbed by a single planet
(Pearce & Wyatt 2014, Sec. 5.4).  Machine floating-point arithmetic is
modelled by the real numbers; the float value `np.inf` returned for a
zero-mass planet is modelled by `⊤ : EReal`, and the numerical quadrature
`scipy.integrate.quad` is modelled by the exact interval integral.
-/

noncomputable section

/-- User input (line 20): star mass in Solar masses. -/
def mStar_mSun : ℝ := 1

/-- User input (line 23): planet mass in Jupiter masses. -/
def mPlt_mJup : ℝ := 1

/-- User input (line 26): planet semimajor axis in au. -/
def aPlt_au : ℝ := 5.2

/-- User input (line 29): test particle semimajor axis in au. -/
def aTest_au : ℝ := 6

/-- Constant (line 33): Jupiter mass in Solar masses. -/
def mJup_mSun : ℝ := 9.55e-4

/-- Function `GetLaplaceCoefficient` (lines 36-44): the Laplace coefficient
`b_s^j(alpha)`, computed as `1/π` times the integral over `[0, 2π]` of
`cos (j ψ) / (1 - 2 alpha cos ψ + alpha²)^s`.  The call
`integrate.quad(integrand, 0, 2π)[0]` is modelled by the exact
interval integral. -/
def GetLaplaceCoefficient (j s alpha : ℝ) : ℝ :=
  1 / Real.pi *
    ∫ psi in (0 : ℝ)..(2 * Real.pi),
      Real.cos (j * psi) / (1 - 2 * alpha * Real.cos psi + alpha ^ 2) ^ s

/-- Ratio `alpha` of the two semimajor axes (lines 62 and 93):
`min(aPlt/aTest, aTest/aPlt)`.  Line 93 inserts `float(...)` casts,
which are the identity in the real-number model. -/
def alpha (aPlt_au aTest_au : ℝ) : ℝ :=
  min (aPlt_au / aTest_au) (aTest_au / aPlt_au)

/-- Function `GetOrbitalPeriod_yr` (lines 104-113): mean motion
`n = abs(4π² mStar / a³) ** 0.5`, period `2π / n`. -/
def GetOrbitalPeriod_yr (a_au mStar_mSun : ℝ) : ℝ :=
  let n_radPerYr := Real.sqrt |4 * Real.pi ^ 2 * mStar_mSun / a_au ^ 3|
  2 * Real.pi / n_radPerYr

/-- Function `GetSecularTimescale_yr` (lines 47-78): returns `np.inf`
(modelled `⊤`) for a zero-mass planet, otherwise Equation 17 of
Pearce & Wyatt (2014) for an internal perturber (`aPlt ≤ aTest`) or
Equation 6 of Pearce et al. (2021) for an external one. -/
def GetSecularTimescale_yr (mStar_mSun mPlt_mJup aPlt_au aTest_au : ℝ) : EReal :=
  if mPlt_mJup = 0 then ⊤ else
  let mPlt_mSun := mPlt_mJup * mJup_mSun
  let mPlt_mStar := mPlt_mSun / mStar_mSun
  let alpha := alpha aPlt_au aTest_au
  let tPlt_yr := GetOrbitalPeriod_yr aPlt_au mStar_mSun
  let b1_32 := GetLaplaceCoefficient 1 1.5 alpha
  if aPlt_au ≤ aTest_au then
    ((4 * tPlt_yr / mPlt_mStar * alpha ^ (-2.5 : ℝ) / b1_32 : ℝ) : EReal)
  else
    ((4 * tPlt_yr / mPlt_mStar * alpha ^ (-0.5 : ℝ) / b1_32 : ℝ) : EReal)

/-- Function `GetDiffusionTimescale_yr` (lines 81-101): returns `np.inf`
(modelled `⊤`) for a zero-mass planet, otherwise Equation 18 of
Pearce & Wyatt (2014).  The Python integer exponent `**-2` is modelled
by `zpow`. -/
def GetDiffusionTimescale_yr (mStar_mSun mPlt_mJup aPlt_au aTest_au : ℝ) : EReal :=
  if mPlt_mJup = 0 then ⊤ else
  let mPlt_mSun := mPlt_mJup * mJup_mSun
  let alpha := alpha aPlt_au aTest_au
  let tPlt_yr := GetOrbitalPeriod_yr aPlt_au mStar_mSun
  ((0.01 * tPlt_yr * alpha ^ (0.5 : ℝ) * (mPlt_mSun / mStar_mSun) ^ (-2 : ℤ) : ℝ) : EReal)

/-- Program (line 117): the secular time for the user inputs. -/
def secularTime_yr : EReal :=
  GetSecularTimescale_yr mStar_mSun mPlt_mJup aPlt_au aTest_au

/-- Program (line 121): the diffusion time for the user inputs. -/
def diffusionTime_yr : EReal :=
  GetDiffusionTimescale_yr mStar_mSun mPlt_mJup aPlt_au aTest_au

/-- Decimal digits of a natural number, zero-padded on the left to width
at least two, as used in the exponent field of Python `%.2e`. -/
def pad2 (n : ℕ) : String :=
  if n < 10 then "0" ++ toString n else toString n

/-- Exponent field of Python `%.2e`: the letter `e`, a mandatory sign and
at least two exponent digits. -/
def expField (e : ℤ) : String :=
  (if e < 0 then "e-" else "e+") ++ pad2 e.natAbs

/-- Mantissa field of Python `%.2e` built from the integer
`m = round(mantissa · 100)` with `100 ≤ m ≤ 999`: leading digit, decimal
point, and exactly two decimal digits. -/
def mantissaField (m : ℕ) : String :=
  toString (m / 100) ++ "." ++ pad2 (m % 100)

/-- Decimal exponent of a positive real, `⌊log₁₀ x⌋`. -/
def sciExp (x : ℝ) : ℤ := ⌊Real.logb 10 x⌋

/-- Mantissa of a positive real rounded to two decimal digits, scaled to an
integer: `round(x / 10^⌊log₁₀ x⌋ · 100)`, a value in `[100, 1000]`. -/
def sciM2 (x : ℝ) : ℤ := round (x / (10 : ℝ) ^ sciExp x * 100)

/-- Model of Python float formatting `%.2e` for a positive real: mantissa
rounded to two decimal digits, with carry into the exponent when the
rounding reaches `10.00`. -/
def formatE2pos (x : ℝ) : String :=
  if sciM2 x = 1000 then mantissaField 100 ++ expField (sciExp x + 1)
  else mantissaField (sciM2 x).toNat ++ expField (sciExp x)

/-- Model of Python `%.2e` on the values the program can produce:
`np.inf` renders as `inf`, zero as `0.00e+00`, negative values with a
leading minus sign, positive reals via `formatE2pos`. -/
def formatE2 (x : EReal) : String :=
  if x = ⊤ then "inf"
  else if x = ⊥ then "-inf"
  else if x.toReal < 0 then "-" ++ formatE2pos (-x.toReal)
  else if x.toReal = 0 then "0.00e+00"
  else formatE2pos x.toReal

/-- Program output (lines 119 and 123): the two printed lines, in print
order, each built from its label, the `%.2e` rendering of the value, and
the unit suffix. -/
def programOutput : List String :=
  ["Secular time: " ++ formatE2 secularTime_yr ++ " yr",
   "Diffusion time: " ++ formatE2 diffusionTime_yr ++ " yr"]

end

/-- C2: with a zero-mass planet, both timescale functions return the
infinite sentinel (`np.inf`, modelled `⊤`), for every star mass and every
pair of semimajor axes, as a defined value. -/
theorem zero_mass_returns_inf (mStar aPlt aTest : ℝ) :
    GetSecularTimescale_yr mStar 0 aPlt aTest = ⊤ ∧
    GetDiffusionTimescale_yr mStar 0 aPlt aTest = ⊤ := by
  constructor <;>
    simp [GetSecularTimescale_yr, GetDiffusionTimescale_yr]

/-- C9: the zero-mass check is the first thing either timescale function
does, so a zero-mass planet yields the infinite sentinel even on
degenerate geometry: equal semimajor axes, or a zero semimajor axis on
either side (inputs on which the later divisions and the orbital-period
evaluation would be degenerate). -/
theorem zero_mass_checked_before_geometry (mStar a : ℝ) :
    GetSecularTimescale_yr mStar 0 a a = ⊤ ∧
    GetSecularTimescale_yr mStar 0 0 a = ⊤ ∧
    GetSecularTimescale_yr mStar 0 a 0 = ⊤ ∧
    GetDiffusionTimescale_yr mStar 0 a a = ⊤ ∧
    GetDiffusionTimescale_yr mStar 0 0 a = ⊤ ∧
    GetDiffusionTimescale_yr mStar 0 a 0 = ⊤ := by
  refine ⟨?_, ?_, ?_, ?_, ?_, ?_⟩ <;>
    simp [GetSecularTimescale_yr, GetDiffusionTimescale_yr]

/-- C6: for distinct positive semimajor axes the derived ratio `alpha`
lies strictly in `(0, 1)` and is invariant under swapping the two axes. -/
theorem alpha_in_unit_interval_and_symm (aPlt aTest : ℝ) (hP : 0 < aPlt)
    (hT : 0 < aTest) (hne : aPlt ≠ aTest) :
    0 < alpha aPlt aTest ∧ alpha aPlt aTest < 1 ∧
    alpha aPlt aTest = alpha aTest aPlt := by
  refine ⟨lt_min (div_pos hP hT) (div_pos hT hP), ?_, min_comm _ _⟩
  rcases lt_or_gt_of_ne hne with h | h
  · exact lt_of_le_of_lt (min_le_left _ _) ((div_lt_one hT).mpr h)
  · exact lt_of_le_of_lt (min_le_right _ _) ((div_lt_one hP).mpr h)

/-- Witness for C6 at `aPlt = 2`, `aTest = 3`. -/
theorem alpha_in_unit_interval_and_symm_witness :
    0 < alpha 2 3 ∧ alpha 2 3 < 1 ∧ alpha 2 3 = alpha 3 2 :=
  alpha_in_unit_interval_and_symm 2 3 (by norm_num) (by norm_num) (by norm_num)

/-- C1: for positive star and planet masses and distinct positive
semimajor axes, the secular timescale is
`4 · tPlt / (mPlt · 9.55e-4 / mStar) · alpha^(-2.5) / b` for an internal
perturber (`aPlt ≤ aTest`) and the same expression with exponent `-0.5`
for an external perturber (`aPlt > aTest`), where
`b = GetLaplaceCoefficient 1 1.5 alpha`. -/
theorem secular_timescale_formula (mStar mPlt aPlt aTest : ℝ)
    (hm : 0 < mStar) (hp : 0 < mPlt) (haP : 0 < aPlt) (haT : 0 < aTest)
    (hne : aPlt ≠ aTest) :
    (aPlt ≤ aTest →
      GetSecularTimescale_yr mStar mPlt aPlt aTest =
        ((4 * GetOrbitalPeriod_yr aPlt mStar / (mPlt * 9.55e-4 / mStar) *
            alpha aPlt aTest ^ (-2.5 : ℝ) /
            GetLaplaceCoefficient 1 1.5 (alpha aPlt aTest) : ℝ) : EReal)) ∧
    (aTest < aPlt →
      GetSecularTimescale_yr mStar mPlt aPlt aTest =
        ((4 * GetOrbitalPeriod_yr aPlt mStar / (mPlt * 9.55e-4 / mStar) *
            alpha aPlt aTest ^ (-0.5 : ℝ) /
            GetLaplaceCoefficient 1 1.5 (alpha aPlt aTest) : ℝ) : EReal)) := by
  constructor
  · intro hle
    simp only [GetSecularTimescale_yr, mJup_mSun]
    rw [if_neg hp.ne', if_pos hle]
  · intro hgt
    simp only [GetSecularTimescale_yr, mJup_mSun]
    rw [if_neg hp.ne', if_neg (not_le.mpr hgt)]

/-- Witness for C1 at `mStar = 1`, `mPlt = 1`, `aPlt = 1`, `aTest = 2`
(internal perturber). -/
theorem secular_timescale_formula_witness :
    GetSecularTimescale_yr 1 1 1 2 =
      ((4 * GetOrbitalPeriod_yr 1 1 / (1 * 9.55e-4 / 1) *
          alpha 1 2 ^ (-2.5 : ℝ) /
          GetLaplaceCoefficient 1 1.5 (alpha 1 2) : ℝ) : EReal) :=
  (secular_timescale_formula 1 1 1 2 (by norm_num) (by norm_num) (by norm_num)
    (by norm_num) (by norm_num)).1 (by norm_num)

/-- C3: for positive star and planet masses and positive semimajor axes,
the diffusion timescale is
`0.01 · tPlt · alpha^0.5 · (mPlt · 9.55e-4 / mStar)^(-2)`, with the planet
mass converted to Solar masses before taking the ratio, and with no branch
on the internal/external geometry. -/
theorem diffusion_timescale_formula (mStar mPlt aPlt aTest : ℝ)
    (hm : 0 < mStar) (hp : 0 < mPlt) (haP : 0 < aPlt) (haT : 0 < aTest) :
    GetDiffusionTimescale_yr mStar mPlt aPlt aTest =
      ((0.01 * GetOrbitalPeriod_yr aPlt mStar * alpha aPlt aTest ^ (0.5 : ℝ) *
          (mPlt * 9.55e-4 / mStar) ^ (-2 : ℤ) : ℝ) : EReal) := by
  simp only [GetDiffusionTimescale_yr, mJup_mSun]
  rw [if_neg hp.ne']

/-- Witness for C3 at `mStar = 1`, `mPlt = 1`, `aPlt = 1`, `aTest = 2`. -/
theorem diffusion_timescale_formula_witness :
    GetDiffusionTimescale_yr 1 1 1 2 =
      ((0.01 * GetOrbitalPeriod_yr 1 1 * alpha 1 2 ^ (0.5 : ℝ) *
          (1 * 9.55e-4 / 1) ^ (-2 : ℤ) : ℝ) : EReal) :=
  diffusion_timescale_formula 1 1 1 2 (by norm_num) (by norm_num) (by norm_num)
    (by norm_num)

/-- C5: for a positive semimajor axis and a positive star mass, the
orbital period is `2π / n` with mean motion `n = sqrt(4π² mStar / a³)`
(the absolute value in the code is the identity there), and the period is
a positive real. -/
theorem orbital_period_formula (a mStar : ℝ) (ha : 0 < a) (hm : 0 < mStar) :
    GetOrbitalPeriod_yr a mStar =
      2 * Real.pi / Real.sqrt (4 * Real.pi ^ 2 * mStar / a ^ 3) ∧
    0 < GetOrbitalPeriod_yr a mStar := by
  have hpos : 0 < 4 * Real.pi ^ 2 * mStar / a ^ 3 := by positivity
  constructor
  · simp only [GetOrbitalPeriod_yr]
    rw [abs_of_pos hpos]
  · simp only [GetOrbitalPeriod_yr]
    have h1 : 0 < Real.sqrt |4 * Real.pi ^ 2 * mStar / a ^ 3| :=
      Real.sqrt_pos.mpr (abs_pos.mpr hpos.ne')
    exact div_pos (by positivity) h1

/-- Witness for C5 at `a = 1`, `mStar = 1`. -/
theorem orbital_period_formula_witness :
    GetOrbitalPeriod_yr 1 1 =
      2 * Real.pi / Real.sqrt (4 * Real.pi ^ 2 * 1 / 1 ^ 3) ∧
    0 < GetOrbitalPeriod_yr 1 1 :=
  orbital_period_formula 1 1 (by norm_num) (by norm_num)

/-- C7: doubling the semimajor axis at fixed star mass multiplies the
orbital period by `2^1.5`. -/
theorem orbital_period_scaling (a mStar : ℝ) (ha : 0 < a) (hm : 0 < mStar) :
    GetOrbitalPeriod_yr (2 * a) mStar =
      (2 : ℝ) ^ (1.5 : ℝ) * GetOrbitalPeriod_yr a mStar := by
  have hY : 0 < 4 * Real.pi ^ 2 * mStar / a ^ 3 := by positivity
  have hY2 : 0 < 4 * Real.pi ^ 2 * mStar / (2 * a) ^ 3 := by positivity
  have h8 : (2 : ℝ) ^ (1.5 : ℝ) = Real.sqrt 8 := by
    rw [show (1.5 : ℝ) = (3 : ℝ) * (1 / 2) by norm_num,
      Real.rpow_mul (by norm_num : (0 : ℝ) ≤ 2),
      show ((2 : ℝ) ^ (3 : ℝ)) = 8 by
        rw [show (3 : ℝ) = ((3 : ℕ) : ℝ) by norm_num, Real.rpow_natCast]
        norm_num,
      Real.sqrt_eq_rpow]
  simp only [GetOrbitalPeriod_yr]
  rw [abs_of_pos hY, abs_of_pos hY2,
    show 4 * Real.pi ^ 2 * mStar / (2 * a) ^ 3 =
      (4 * Real.pi ^ 2 * mStar / a ^ 3) / 8 by ring,
    Real.sqrt_div hY.le, h8]
  have hsY : Real.sqrt (4 * Real.pi ^ 2 * mStar / a ^ 3) ≠ 0 :=
    (Real.sqrt_pos.mpr hY).ne'
  have hs8 : Real.sqrt 8 ≠ 0 :=
    (Real.sqrt_pos.mpr (by norm_num : (0 : ℝ) < 8)).ne'
  field_simp
  ring

/-- Witness for C7 at `a = 1`, `mStar = 1`. -/
theorem orbital_period_scaling_witness :
    GetOrbitalPeriod_yr (2 * 1) 1 = (2 : ℝ) ^ (1.5 : ℝ) * GetOrbitalPeriod_yr 1 1 :=
  orbital_period_scaling 1 1 (by norm_num) (by norm_num)

/-- C10: for every nonzero semimajor axis and every nonzero star mass,
negative star mass included, the orbital period is a positive real, and
negating the star mass does not change the period: the mean motion takes
the square root of the absolute value of `4π² mStar / a³`, so the
radicand is never negative. -/
theorem orbital_period_abs_radicand (a mStar : ℝ) (ha : a ≠ 0) (hm : mStar ≠ 0) :
    0 < GetOrbitalPeriod_yr a mStar ∧
    GetOrbitalPeriod_yr a (-mStar) = GetOrbitalPeriod_yr a mStar := by
  have hne : 4 * Real.pi ^ 2 * mStar / a ^ 3 ≠ 0 :=
    div_ne_zero
      (mul_ne_zero (mul_ne_zero (by norm_num) (pow_ne_zero 2 Real.pi_ne_zero)) hm)
      (pow_ne_zero 3 ha)
  constructor
  · simp only [GetOrbitalPeriod_yr]
    have h1 : 0 < Real.sqrt |4 * Real.pi ^ 2 * mStar / a ^ 3| :=
      Real.sqrt_pos.mpr (abs_pos.mpr hne)
    exact div_pos (by positivity) h1
  · simp only [GetOrbitalPeriod_yr]
    rw [show 4 * Real.pi ^ 2 * -mStar / a ^ 3 =
      -(4 * Real.pi ^ 2 * mStar / a ^ 3) by ring, abs_neg]

/-- Witness for C10 at `a = 1`, `mStar = 2`. -/
theorem orbital_period_abs_radicand_witness :
    0 < GetOrbitalPeriod_yr 1 2 ∧
    GetOrbitalPeriod_yr 1 (-2) = GetOrbitalPeriod_yr 1 2 :=
  orbital_period_abs_radicand 1 2 (by norm_num) (by norm_num)

/-- C8: the program prints exactly two lines, the secular result first,
each carrying its label, the `%.2e` rendering (scientific notation with
two decimal digits of mantissa) of its value, and the unit `yr`. -/
theorem program_prints_two_labelled_lines :
    programOutput.length = 2 ∧
    programOutput.head? =
      some ("Secular time: " ++ formatE2 secularTime_yr ++ " yr") ∧
    programOutput[1]? =
      some ("Diffusion time: " ++ formatE2 diffusionTime_yr ++ " yr") :=
  ⟨rfl, rfl, rfl⟩
